import Mathlib

/-!
Shallow embedding of the audio-rate time synchronizer in `src/rt.c`
(functions `asrsync_sync` and `difftimespec`).

Modelling conventions:
* `struct timespec` becomes `Timespec` with unbounded integer fields.  The
  field widths (`time_t`, `long`) live in `rt.h`, which is not part of the
  sources; the spec describes time points only as "seconds + sub-second
  nanosecond components", so the fields are modelled as `Int`.
* `timespecsub` and `gettimestamp` are macros from `rt.h` (not in the
  sources); they are modelled from the spec (see their doc comments).
  `gettimestamp` is modelled as an oracle input: each call to `asrsync_sync`
  receives the two clock readings (`ClockRead`), each carrying a success
  flag mirroring the `clock_gettime` return value.  The C code discards
  that return value, which the model mirrors by never inspecting `ok`.
* The frame counter (`asrs->frames`, declared in the absent `rt.h`) is
  modelled from the spec as an unbounded natural number: the spec gives no
  width and makes the owner responsible for zeroing the counter before it
  could overflow.
* The startup damping in `asrsync_sync` uses C `double` arithmetic; it is
  modelled by the exact integer computation it denotes
  (`total / 2000000000` seconds, `total / 2` nanoseconds, with
  floor division, which agrees with the C truncation-toward-zero casts on
  the non-negative durations produced by `difftimespec`).  At every
  concrete input used in the theorems below the `double` computation is
  exact, so model and code agree there bit for bit.
-/

/-- A time point: `struct timespec` (seconds + nanoseconds). -/
structure Timespec where
  sec : Int
  nsec : Int
  deriving DecidableEq, Repr

/-- A time point is well-formed when its nanosecond component lies in
`[0, 1e9)`, as required of `difftimespec` inputs by the spec. -/
def Timespec.wf (t : Timespec) : Prop :=
  0 ≤ t.nsec ∧ t.nsec < 1000000000

instance (t : Timespec) : Decidable t.wf := by
  unfold Timespec.wf; infer_instance

/-- Total duration of a time point in nanoseconds. -/
def Timespec.toNanos (t : Timespec) : Int :=
  t.sec * 1000000000 + t.nsec

/-- Modelled from the spec: `timespecsub` from `rt.h` (not in the sources),
"plain subtraction of the earlier from the later full time point
(normalizing borrow from seconds into nanoseconds)": componentwise
subtraction, borrowing one second into nanoseconds when the nanosecond
difference is negative. -/
def timespecsub (a b : Timespec) : Timespec :=
  let s := a.sec - b.sec
  let n := a.nsec - b.nsec
  if n < 0 then ⟨s - 1, n + 1000000000⟩ else ⟨s, n⟩

/-- `difftimespec` from `src/rt.c`: writes the absolute difference of the
two time points and returns an integer whose sign encodes how `t2` compares
to `t1` (the sign of `t2 - t1`).  The pair is `(stored absolute
difference, returned int)`. -/
def difftimespec (ts1 ts2 : Timespec) : Timespec × Int :=
  if ts1.sec = ts2.sec then
    (⟨0, |ts2.nsec - ts1.nsec|⟩, ts2.nsec - ts1.nsec)
  else if ts1.sec < ts2.sec then
    (timespecsub ts2 ts1, 1)
  else
    (timespecsub ts1 ts2, -1)

/-- The spec's abstract three-way ordering for `diff(t1, t2)`. -/
inductive Ord3 where
  | less
  | equal
  | greater
  deriving DecidableEq, Repr

/-- Decoding of `difftimespec`'s numeric return into the spec's ordering:
the numeric value is the sign of `t2 - t1`, while the named ordering states
how `t1` compares to `t2`, so a positive return decodes to `less`
(`t1` earlier than `t2`). -/
def ord3OfRet (r : Int) : Ord3 :=
  if 0 < r then .less else if r = 0 then .equal else .greater

/-- `timespecsub` preserves the total nanosecond value of the difference. -/
theorem timespecsub_toNanos (a b : Timespec) :
    (timespecsub a b).toNanos = a.toNanos - b.toNanos := by
  simp only [timespecsub, Timespec.toNanos]
  split <;> push_cast <;> ring

/-- The nanosecond field of `timespecsub` is well-formed whenever both
inputs are. -/
theorem timespecsub_nsec_wf (a b : Timespec) (ha : a.wf) (hb : b.wf) :
    0 ≤ (timespecsub a b).nsec ∧ (timespecsub a b).nsec < 1000000000 := by
  obtain ⟨ha0, ha1⟩ := ha
  obtain ⟨hb0, hb1⟩ := hb
  simp only [timespecsub]
  split <;> simp only [] <;> omega

/-- **C4.** For well-formed time points whose whole-second fields differ,
`difftimespec` returns the ordering `less` exactly when `t1`'s seconds are
smaller than `t2`'s (and `greater` otherwise), and the stored value is the
absolute difference of the two time points, obtained by subtracting the
earlier from the later. -/
theorem difftimespec_sec_ne (t1 t2 : Timespec)
    (h1 : t1.wf) (h2 : t2.wf) (hne : t1.sec ≠ t2.sec) :
    ord3OfRet (difftimespec t1 t2).2 =
      (if t1.sec < t2.sec then Ord3.less else Ord3.greater) ∧
    (difftimespec t1 t2).1 =
      (if t1.sec < t2.sec then timespecsub t2 t1 else timespecsub t1 t2) ∧
    (difftimespec t1 t2).1.toNanos = |t2.toNanos - t1.toNanos| := by
  obtain ⟨h10, h11⟩ := h1
  obtain ⟨h20, h21⟩ := h2
  rcases lt_or_gt_of_ne hne with hlt | hgt
  · have habs : 0 < t2.toNanos - t1.toNanos := by
      unfold Timespec.toNanos; omega
    refine ⟨?_, ?_, ?_⟩
    · simp [difftimespec, hne, hlt, ord3OfRet]
    · simp [difftimespec, hne, hlt]
    · simp [difftimespec, hne, hlt, timespecsub_toNanos, abs_of_pos habs]
  · have hnlt : ¬ t1.sec < t2.sec := not_lt.mpr hgt.le
    have habs : t2.toNanos - t1.toNanos < 0 := by
      unfold Timespec.toNanos; omega
    refine ⟨?_, ?_, ?_⟩
    · simp [difftimespec, hne, hnlt, ord3OfRet]
    · simp [difftimespec, hne, hnlt]
    · simp only [difftimespec, if_neg hne, if_neg hnlt, timespecsub_toNanos,
        abs_of_neg habs]
      ring

/-- Witness for C4 at `t1 = 1s + 7ns`, `t2 = 3s + 2ns`. -/
theorem difftimespec_sec_ne_witness :
    ord3OfRet (difftimespec ⟨1, 7⟩ ⟨3, 2⟩).2 =
      (if (1 : Int) < 3 then Ord3.less else Ord3.greater) ∧
    (difftimespec ⟨1, 7⟩ ⟨3, 2⟩).1 =
      (if (1 : Int) < 3 then timespecsub ⟨3, 2⟩ ⟨1, 7⟩
        else timespecsub ⟨1, 7⟩ ⟨3, 2⟩) ∧
    (difftimespec ⟨1, 7⟩ ⟨3, 2⟩).1.toNanos =
      |Timespec.toNanos ⟨3, 2⟩ - Timespec.toNanos ⟨1, 7⟩| :=
  difftimespec_sec_ne ⟨1, 7⟩ ⟨3, 2⟩ (by decide) (by decide) (by decide)

/-- **C8.** `difftimespec t t` stores the zero duration and returns `0`,
which decodes to the ordering `equal`, for every time point `t`. -/
theorem difftimespec_self (t : Timespec) :
    difftimespec t t = (⟨0, 0⟩, 0) ∧ ord3OfRet (difftimespec t t).2 = .equal := by
  unfold difftimespec
  simp [ord3OfRet]

/-- **C9.** For distinct time points, `difftimespec t1 t2` and
`difftimespec t2 t1` store the same absolute difference and return values
of opposite sign, one positive and the other negative. -/
theorem difftimespec_antisymm (t1 t2 : Timespec) (hne : t1 ≠ t2) :
    (difftimespec t1 t2).1 = (difftimespec t2 t1).1 ∧
    (difftimespec t2 t1).2 = -(difftimespec t1 t2).2 ∧
    (0 < (difftimespec t1 t2).2 ∧ (difftimespec t2 t1).2 < 0 ∨
      (difftimespec t1 t2).2 < 0 ∧ 0 < (difftimespec t2 t1).2) := by
  unfold difftimespec
  by_cases hsec : t1.sec = t2.sec
  · have hnsec : t1.nsec ≠ t2.nsec := by
      intro hn
      exact hne (by cases t1; cases t2; simp_all)
    rw [if_pos hsec, if_pos hsec.symm]
    refine ⟨by rw [abs_sub_comm], by ring_nf, ?_⟩
    rcases lt_or_gt_of_ne hnsec with h | h
    · left; constructor <;> simp <;> omega
    · right; constructor <;> simp <;> omega
  · rcases lt_or_gt_of_ne hsec with h | h
    · rw [if_neg hsec, if_pos h, if_neg (Ne.symm hsec), if_neg (not_lt.mpr h.le)]
      norm_num
    · rw [if_neg hsec, if_neg (not_lt.mpr h.le), if_neg (Ne.symm hsec),
        if_pos h]
      norm_num

/-- Witness for C9 at `t1 = 0s + 5ns`, `t2 = 0s + 9ns`. -/
theorem difftimespec_antisymm_witness :
    (difftimespec ⟨0, 5⟩ ⟨0, 9⟩).1 = (difftimespec ⟨0, 9⟩ ⟨0, 5⟩).1 ∧
    (difftimespec ⟨0, 9⟩ ⟨0, 5⟩).2 = -(difftimespec ⟨0, 5⟩ ⟨0, 9⟩).2 ∧
    (0 < (difftimespec ⟨0, 5⟩ ⟨0, 9⟩).2 ∧ (difftimespec ⟨0, 9⟩ ⟨0, 5⟩).2 < 0 ∨
      (difftimespec ⟨0, 5⟩ ⟨0, 9⟩).2 < 0 ∧ 0 < (difftimespec ⟨0, 9⟩ ⟨0, 5⟩).2) :=
  difftimespec_antisymm ⟨0, 5⟩ ⟨0, 9⟩ (by decide)

/-- One monotonic clock reading, modelled from the spec's `gettimestamp`
(`rt.h`, not in the sources): `ok` mirrors the success of the underlying
`clock_gettime` call and `val` the time point written to the buffer.
`asrsync_sync` in `src/rt.c` discards the call's result, so `ok` is never
inspected by the model of the function. -/
structure ClockRead where
  ok : Bool
  val : Timespec
  deriving DecidableEq, Repr

/-- `struct asrsync` (declared in the absent `rt.h`, fields per the spec's
state layout): sample rate, running frame counter, mode flag and the four
time-tracking fields. -/
structure Asrsync where
  rate : Nat
  frames : Nat
  sync_mode : Bool
  ts : Timespec
  ts0 : Timespec
  ts_busy : Timespec
  ts_idle : Timespec
  deriving DecidableEq, Repr

/-- `FRAME_THRESHOLD` from `asrsync_sync`. -/
def FRAME_THRESHOLD : Nat := 200000

/-- The `ts_rate` computation of `asrsync_sync`:
`tv_sec = frames / rate`, `tv_nsec = 1000000000L / rate * (frames % rate)`
(C integer division, left-to-right: the per-frame nanosecond quantum
`1e9 / rate` is computed first). -/
def tsRate (rate frames : Nat) : Timespec :=
  ⟨(frames / rate : Nat), ((1000000000 / rate * (frames % rate) : Nat) : Int)⟩

/-- The startup damping of `asrsync_sync`
(`idle_time = tv_sec + tv_nsec/1e9; idle_time *= 0.5;
tv_sec = (time_t)idle_time; tv_nsec = (long)(idle_time*1e9)`), modelled in
exact integer arithmetic: with `total` the duration in nanoseconds, the
halved value `idle_time` is `total / 2e9` seconds, so the stored fields are
`⌊total / 2e9⌋` and `⌊total / 2⌋`.  Floor division agrees with the C
truncation casts on the non-negative durations `difftimespec` produces, and
with the `double` computation wherever the latter is exact (in particular
at every concrete input used below).  Note the C code converts the *whole*
halved duration to nanoseconds, without subtracting the seconds part. -/
def dampIdle (t : Timespec) : Timespec :=
  let total := t.sec * 1000000000 + t.nsec
  ⟨total / 2000000000, total / 2⟩

/-- The mode-transition check of `asrsync_sync`, applied to the state after
`asrs->frames += frames` (the argument `frames` is the unmodified chunk
parameter): while `sync_mode` is false, set it to
`frames counter ≥ FRAME_THRESHOLD`; on transition, reset the counter to the
chunk's frame count and snapshot `ts0` from `ts`. -/
def modeUpdate (s : Asrsync) (frames : Nat) : Asrsync :=
  if s.sync_mode = false then
    if FRAME_THRESHOLD ≤ s.frames then
      { s with sync_mode := true, frames := frames, ts0 := s.ts }
    else s
  else s

/-- The frame count selected for the rate computation: the running counter
in synced mode, else the current chunk's count. -/
def selectFrames (s : Asrsync) (frames : Nat) : Nat :=
  if s.sync_mode then s.frames else frames

/-- The reference time point (`ts_rev`) selected for the rate computation:
`ts0` in synced mode, else `ts`. -/
def selectRef (s : Asrsync) : Timespec :=
  if s.sync_mode then s.ts0 else s.ts

/-- The synchronizer state after the counter update and the mode-transition
check at the top of `asrsync_sync`. -/
def syncState1 (s : Asrsync) (n : Nat) : Asrsync :=
  modeUpdate { s with frames := s.frames + n } n

/-- The comparison `difftimespec(&ts_running, &ts_rate, &asrs->ts_idle)`
performed by `asrsync_sync`, given the first clock reading `now`:
the pair of the stored absolute difference and the returned sign. -/
def syncCompare (s : Asrsync) (n : Nat) (now : Timespec) : Timespec × Int :=
  difftimespec (timespecsub now (selectRef (syncState1 s n)))
    (tsRate s.rate (selectFrames (syncState1 s n) n))

/-- `asrsync_sync` from `src/rt.c`.  `clock1` and `clock2` are the two
`gettimestamp` readings (before the comparison and at the end); the C code
discards their success flags, so neither `ok` field is inspected.  Returns
the final state, the `int` return value `rv`, and the list of durations
passed to `nanosleep` (empty when the call does not block). -/
def asrsync_sync (asrs : Asrsync) (frames : Nat) (clock1 clock2 : ClockRead) :
    Asrsync × Int × List Timespec :=
  let s1 := syncState1 asrs frames
  let ts_now := clock1.val
  let ts_busy := timespecsub ts_now s1.ts
  let dc := syncCompare asrs frames ts_now
  let ts_idle := if 0 < dc.2 ∧ s1.sync_mode = false then dampIdle dc.1 else dc.1
  ({ s1 with ts_busy := ts_busy, ts_idle := ts_idle, ts := clock2.val },
    if 0 < dc.2 then 1 else 0,
    if 0 < dc.2 then [ts_idle] else [])

/-- `asrsync_sync` over a whole sequence of calls, threading the state. -/
def runSync (s : Asrsync) : List (Nat × ClockRead × ClockRead) → Asrsync
  | [] => s
  | (n, c1, c2) :: rest => runSync (asrsync_sync s n c1 c2).1 rest

/-- Helper: a single call to `asrsync_sync` preserves `sync_mode = true`. -/
theorem asrsync_sync_mode_step (s : Asrsync) (n : Nat) (c1 c2 : ClockRead)
    (h : s.sync_mode = true) : (asrsync_sync s n c1 c2).1.sync_mode = true := by
  simp [asrsync_sync, syncState1, modeUpdate, h]

/-- **C6.** Once `sync_mode` is true, no sequence of further calls to
`asrsync_sync` ever makes it false again. -/
theorem sync_mode_monotone (s : Asrsync)
    (calls : List (Nat × ClockRead × ClockRead)) (h : s.sync_mode = true) :
    (runSync s calls).sync_mode = true := by
  induction calls generalizing s with
  | nil => exact h
  | cons c rest ih =>
    obtain ⟨n, c1, c2⟩ := c
    exact ih _ (asrsync_sync_mode_step s n c1 c2 h)

/-- Witness for C6: a synced-mode instance stays synced over two calls. -/
theorem sync_mode_monotone_witness :
    (runSync ⟨44100, 5000, true, ⟨0, 0⟩, ⟨0, 0⟩, ⟨0, 0⟩, ⟨0, 0⟩⟩
      [(1024, ⟨true, ⟨0, 0⟩⟩, ⟨true, ⟨0, 1⟩⟩),
       (1024, ⟨true, ⟨0, 2⟩⟩, ⟨true, ⟨0, 3⟩⟩)]).sync_mode = true :=
  sync_mode_monotone _ _ rfl

/-- **C10.** `asrsync_sync` returns `0` or `1` for every state, frame count
and pair of clock readings (whatever their success flags): the documented
error result `-1` is never produced. -/
theorem asrsync_sync_rv_zero_or_one (s : Asrsync) (n : Nat)
    (c1 c2 : ClockRead) :
    (asrsync_sync s n c1 c2).2.1 = 0 ∨ (asrsync_sync s n c1 c2).2.1 = 1 := by
  simp only [asrsync_sync]
  split
  · right; rfl
  · left; rfl

/-- **C1.** Evaluation at a call whose two clock reads both fail
(`ok = false`): `asrsync_sync` ignores the failures, returns `1` (never the
documented `-1`), and still mutates the state — here `ts_idle` changes from
zero to `0.25 s`.  (State: zeroed, `rate = 48000`; chunk of 48000 frames;
both clock reads fail leaving the zeroed buffer.) -/
theorem asrsync_sync_ignores_clock_failure :
    (asrsync_sync ⟨48000, 0, false, ⟨0, 0⟩, ⟨0, 0⟩, ⟨0, 0⟩, ⟨0, 0⟩⟩ 48000
        ⟨false, ⟨0, 0⟩⟩ ⟨false, ⟨0, 0⟩⟩).2.1 = 1 ∧
    (asrsync_sync ⟨48000, 0, false, ⟨0, 0⟩, ⟨0, 0⟩, ⟨0, 0⟩, ⟨0, 0⟩⟩ 48000
        ⟨false, ⟨0, 0⟩⟩ ⟨false, ⟨0, 0⟩⟩).2.1 ≠ -1 ∧
    (asrsync_sync ⟨48000, 0, false, ⟨0, 0⟩, ⟨0, 0⟩, ⟨0, 0⟩, ⟨0, 0⟩⟩ 48000
        ⟨false, ⟨0, 0⟩⟩ ⟨false, ⟨0, 0⟩⟩).1.ts_idle = ⟨0, 500000000⟩ ∧
    (asrsync_sync ⟨48000, 0, false, ⟨0, 0⟩, ⟨0, 0⟩, ⟨0, 0⟩, ⟨0, 0⟩⟩ 48000
        ⟨false, ⟨0, 0⟩⟩ ⟨false, ⟨0, 0⟩⟩).1.ts_idle ≠ ⟨0, 0⟩ := by
  decide

/-- **C2.** Evaluation of the startup damping at an undamped idle duration
of exactly 2 s (zeroed state, `rate = 48000`, one chunk of 96000 frames,
both clock readings at 0, so the stored absolute difference is `⟨2, 0⟩`):
the final `ts_idle` is `⟨1, 1000000000⟩`, whose nanosecond field is out of
range (not `< 1e9`) and whose total duration is the full undamped
2000000000 ns rather than the halved 1000000000 ns. -/
theorem damp_overflow_at_two_seconds :
    (asrsync_sync ⟨48000, 0, false, ⟨0, 0⟩, ⟨0, 0⟩, ⟨0, 0⟩, ⟨0, 0⟩⟩ 96000
        ⟨true, ⟨0, 0⟩⟩ ⟨true, ⟨0, 0⟩⟩).1.ts_idle = ⟨1, 1000000000⟩ ∧
    ¬ (asrsync_sync ⟨48000, 0, false, ⟨0, 0⟩, ⟨0, 0⟩, ⟨0, 0⟩, ⟨0, 0⟩⟩ 96000
        ⟨true, ⟨0, 0⟩⟩ ⟨true, ⟨0, 0⟩⟩).1.ts_idle.wf ∧
    (asrsync_sync ⟨48000, 0, false, ⟨0, 0⟩, ⟨0, 0⟩, ⟨0, 0⟩, ⟨0, 0⟩⟩ 96000
        ⟨true, ⟨0, 0⟩⟩ ⟨true, ⟨0, 0⟩⟩).1.ts_idle.toNanos = 2000000000 ∧
    (asrsync_sync ⟨48000, 0, false, ⟨0, 0⟩, ⟨0, 0⟩, ⟨0, 0⟩, ⟨0, 0⟩⟩ 96000
        ⟨true, ⟨0, 0⟩⟩ ⟨true, ⟨0, 0⟩⟩).2.2 = [⟨1, 1000000000⟩] := by
  decide

/-- **C3.** On a call that enters with `sync_mode` false and whose updated
running counter reaches the threshold, `asrsync_sync` sets `sync_mode`,
resets the counter to the chunk's frame count, snapshots `ts0` from `ts`,
and already performs this call's rate computation from the running counter
and `ts0`; moreover every call entered in synced mode (`s'`, which by C6 is
every subsequent call) selects the full updated running counter and `ts0`
for the rate computation, not the per-chunk count and `ts`. -/
theorem sync_mode_transition (s : Asrsync) (n : Nat) (c1 c2 : ClockRead)
    (s' : Asrsync) (m : Nat)
    (hmode : s.sync_mode = false) (hth : FRAME_THRESHOLD ≤ s.frames + n)
    (h' : s'.sync_mode = true) :
    (asrsync_sync s n c1 c2).1.sync_mode = true ∧
    (asrsync_sync s n c1 c2).1.frames = n ∧
    (asrsync_sync s n c1 c2).1.ts0 = s.ts ∧
    selectFrames (syncState1 s n) n = (syncState1 s n).frames ∧
    selectRef (syncState1 s n) = (syncState1 s n).ts0 ∧
    selectFrames (syncState1 s' m) m = s'.frames + m ∧
    selectRef (syncState1 s' m) = s'.ts0 := by
  have hs1 : syncState1 s n =
      { s with sync_mode := true, frames := n, ts0 := s.ts } := by
    simp [syncState1, modeUpdate, hmode, hth]
  refine ⟨?_, ?_, ?_, ?_, ?_, ?_, ?_⟩
  · simp [asrsync_sync, hs1]
  · simp [asrsync_sync, hs1]
  · simp [asrsync_sync, hs1]
  · simp [selectFrames, hs1]
  · simp [selectRef, hs1]
  · simp [selectFrames, syncState1, modeUpdate, h']
  · simp [selectRef, syncState1, modeUpdate, h']

/-- Witness for C3: `rate = 44100`, counter at 199000, a chunk of 1024
frames crosses the threshold; `s'` is an already-synced state. -/
theorem sync_mode_transition_witness :
    (asrsync_sync ⟨44100, 199000, false, ⟨5, 5⟩, ⟨0, 0⟩, ⟨0, 0⟩, ⟨0, 0⟩⟩ 1024
        ⟨true, ⟨6, 0⟩⟩ ⟨true, ⟨6, 1⟩⟩).1.sync_mode = true ∧
    (asrsync_sync ⟨44100, 199000, false, ⟨5, 5⟩, ⟨0, 0⟩, ⟨0, 0⟩, ⟨0, 0⟩⟩ 1024
        ⟨true, ⟨6, 0⟩⟩ ⟨true, ⟨6, 1⟩⟩).1.frames = 1024 ∧
    (asrsync_sync ⟨44100, 199000, false, ⟨5, 5⟩, ⟨0, 0⟩, ⟨0, 0⟩, ⟨0, 0⟩⟩ 1024
        ⟨true, ⟨6, 0⟩⟩ ⟨true, ⟨6, 1⟩⟩).1.ts0 = ⟨5, 5⟩ ∧
    selectFrames
        (syncState1 ⟨44100, 199000, false, ⟨5, 5⟩, ⟨0, 0⟩, ⟨0, 0⟩, ⟨0, 0⟩⟩ 1024)
        1024 =
      (syncState1 ⟨44100, 199000, false, ⟨5, 5⟩, ⟨0, 0⟩, ⟨0, 0⟩, ⟨0, 0⟩⟩
        1024).frames ∧
    selectRef
        (syncState1 ⟨44100, 199000, false, ⟨5, 5⟩, ⟨0, 0⟩, ⟨0, 0⟩, ⟨0, 0⟩⟩ 1024) =
      (syncState1 ⟨44100, 199000, false, ⟨5, 5⟩, ⟨0, 0⟩, ⟨0, 0⟩, ⟨0, 0⟩⟩
        1024).ts0 ∧
    selectFrames
        (syncState1 ⟨44100, 4096, true, ⟨9, 9⟩, ⟨7, 7⟩, ⟨0, 0⟩, ⟨0, 0⟩⟩ 512)
        512 = 4096 + 512 ∧
    selectRef (syncState1 ⟨44100, 4096, true, ⟨9, 9⟩, ⟨7, 7⟩, ⟨0, 0⟩, ⟨0, 0⟩⟩
        512) = ⟨7, 7⟩ :=
  sync_mode_transition ⟨44100, 199000, false, ⟨5, 5⟩, ⟨0, 0⟩, ⟨0, 0⟩, ⟨0, 0⟩⟩
    1024 ⟨true, ⟨6, 0⟩⟩ ⟨true, ⟨6, 1⟩⟩
    ⟨44100, 4096, true, ⟨9, 9⟩, ⟨7, 7⟩, ⟨0, 0⟩, ⟨0, 0⟩⟩ 512
    rfl (by decide) rfl

/-- **C5.** For every positive rate and frame count, the expected duration
computed by `asrsync_sync` (step 4 of the spec, via `tsRate`) is exactly
`frames / rate` whole seconds plus `(1e9 / rate) * (frames % rate)`
nanoseconds in integer arithmetic, and its nanosecond field is well-formed
(in `[0, 1e9)`). -/
theorem tsRate_exact (rate f : Nat) (h : 0 < rate) :
    (tsRate rate f).sec = ((f / rate : Nat) : Int) ∧
    (tsRate rate f).nsec = ((1000000000 / rate * (f % rate) : Nat) : Int) ∧
    (tsRate rate f).wf := by
  refine ⟨rfl, rfl, ?_⟩
  constructor
  · exact Int.natCast_nonneg _
  · have hc : 1000000000 / rate * (f % rate) < 1000000000 := by
      rcases Nat.lt_or_ge 1000000000 rate with hr | hr
      · simp [Nat.div_eq_of_lt hr]
      · have hq1 : 1 ≤ 1000000000 / rate := (Nat.one_le_div_iff h).mpr hr
        have hm : f % rate + 1 ≤ rate := Nat.succ_le_of_lt (Nat.mod_lt f h)
        have h2 : 1000000000 / rate * (f % rate + 1) ≤ 1000000000 / rate * rate :=
          Nat.mul_le_mul_left _ hm
        have h3 : 1000000000 / rate * rate ≤ 1000000000 :=
          Nat.div_mul_le_self _ _
        rw [Nat.mul_add, Nat.mul_one] at h2
        omega
    show ((1000000000 / rate * (f % rate) : Nat) : Int) < 1000000000
    exact_mod_cast hc

/-- Witness for C5 at `rate = 44100`, `frames = 66150` (1.5 s of audio). -/
theorem tsRate_exact_witness :
    (tsRate 44100 66150).sec = ((66150 / 44100 : Nat) : Int) ∧
    (tsRate 44100 66150).nsec = ((1000000000 / 44100 * (66150 % 44100) : Nat) : Int) ∧
    (tsRate 44100 66150).wf :=
  tsRate_exact 44100 66150 (by decide)

/-- **C7.** A call whose two clock reads succeed returns `1` and blocks
(passes a duration to `nanosleep`) exactly when the `difftimespec`
comparison of the running time against the expected duration is positive,
and returns `0` without blocking exactly when that comparison is zero or
negative; the comparison stores the absolute difference in `ts_idle`, which
remains its final value except that a startup-mode wait halves it (C2's
damping step). -/
theorem sync_blocks_iff_ahead (s : Asrsync) (n : Nat) (c1 c2 : ClockRead)
    (h1 : c1.ok = true) (h2 : c2.ok = true) :
    ((asrsync_sync s n c1 c2).2.1 = 1 ↔ 0 < (syncCompare s n c1.val).2) ∧
    ((asrsync_sync s n c1 c2).2.2 ≠ [] ↔ 0 < (syncCompare s n c1.val).2) ∧
    ((asrsync_sync s n c1 c2).2.1 = 0 ↔ (syncCompare s n c1.val).2 ≤ 0) ∧
    (asrsync_sync s n c1 c2).1.ts_idle =
      (if 0 < (syncCompare s n c1.val).2 ∧ (syncState1 s n).sync_mode = false
        then dampIdle (syncCompare s n c1.val).1
        else (syncCompare s n c1.val).1) := by
  by_cases hc : 0 < (syncCompare s n c1.val).2
  · simp [asrsync_sync, hc, not_le.mpr hc]
  · simp [asrsync_sync, hc, not_lt.mp hc]

/-- Witness for C7: the spec's scenario `rate = 8000`, one chunk of 8000
frames, 2 s of real time elapsed (more than the expected 1 s), so no wait. -/
theorem sync_blocks_iff_ahead_witness :
    ((asrsync_sync ⟨8000, 0, false, ⟨0, 0⟩, ⟨0, 0⟩, ⟨0, 0⟩, ⟨0, 0⟩⟩ 8000
        ⟨true, ⟨2, 0⟩⟩ ⟨true, ⟨2, 0⟩⟩).2.1 = 1 ↔
      0 < (syncCompare ⟨8000, 0, false, ⟨0, 0⟩, ⟨0, 0⟩, ⟨0, 0⟩, ⟨0, 0⟩⟩ 8000
        ⟨2, 0⟩).2) ∧
    ((asrsync_sync ⟨8000, 0, false, ⟨0, 0⟩, ⟨0, 0⟩, ⟨0, 0⟩, ⟨0, 0⟩⟩ 8000
        ⟨true, ⟨2, 0⟩⟩ ⟨true, ⟨2, 0⟩⟩).2.2 ≠ [] ↔
      0 < (syncCompare ⟨8000, 0, false, ⟨0, 0⟩, ⟨0, 0⟩, ⟨0, 0⟩, ⟨0, 0⟩⟩ 8000
        ⟨2, 0⟩).2) ∧
    ((asrsync_sync ⟨8000, 0, false, ⟨0, 0⟩, ⟨0, 0⟩, ⟨0, 0⟩, ⟨0, 0⟩⟩ 8000
        ⟨true, ⟨2, 0⟩⟩ ⟨true, ⟨2, 0⟩⟩).2.1 = 0 ↔
      (syncCompare ⟨8000, 0, false, ⟨0, 0⟩, ⟨0, 0⟩, ⟨0, 0⟩, ⟨0, 0⟩⟩ 8000
        ⟨2, 0⟩).2 ≤ 0) ∧
    (asrsync_sync ⟨8000, 0, false, ⟨0, 0⟩, ⟨0, 0⟩, ⟨0, 0⟩, ⟨0, 0⟩⟩ 8000
        ⟨true, ⟨2, 0⟩⟩ ⟨true, ⟨2, 0⟩⟩).1.ts_idle =
      (if 0 < (syncCompare ⟨8000, 0, false, ⟨0, 0⟩, ⟨0, 0⟩, ⟨0, 0⟩, ⟨0, 0⟩⟩
              8000 ⟨2, 0⟩).2 ∧
          (syncState1 ⟨8000, 0, false, ⟨0, 0⟩, ⟨0, 0⟩, ⟨0, 0⟩, ⟨0, 0⟩⟩
              8000).sync_mode = false
        then dampIdle (syncCompare ⟨8000, 0, false, ⟨0, 0⟩, ⟨0, 0⟩, ⟨0, 0⟩,
              ⟨0, 0⟩⟩ 8000 ⟨2, 0⟩).1
        else (syncCompare ⟨8000, 0, false, ⟨0, 0⟩, ⟨0, 0⟩, ⟨0, 0⟩, ⟨0, 0⟩⟩
              8000 ⟨2, 0⟩).1) :=
  sync_blocks_iff_ahead ⟨8000, 0, false, ⟨0, 0⟩, ⟨0, 0⟩, ⟨0, 0⟩, ⟨0, 0⟩⟩ 8000
    ⟨true, ⟨2, 0⟩⟩ ⟨true, ⟨2, 0⟩⟩ rfl rfl
